import Mathlib

/-!
Shallow embedding of the MedExchange in-memory matching engine
(`order_book.py`, `models.py`, `main.py`) and proofs about it.

Modelling conventions:
* `Order` / `Trade` mirror the dataclasses of `models.py`.  Prices and
  quantities are embedded as `Int`: the matching code only compares, copies,
  and adds/subtracts these numbers (`min`, `-`), so exact integers model the
  Python `float` prices and `int` quantities faithfully for every property
  proved here (no rounding-sensitive arithmetic occurs).
* The Python code mutates `Order` objects in place; the embedding passes the
  updated objects explicitly.
* `uuid.uuid4()` and `time.time()` are environment collaborators; trade ids
  are modelled by a fixed opaque token and timestamps are not used by any of
  the embedded control flow (the code never reads them).
* Persistence (`_save_trade` / `_save_or_update_order`) touches only the
  database, never the in-memory book.  Three layers are embedded:
  (1) `matchLoop` / `add_order`: the in-memory matching logic with the
  persistence calls recorded as `PEvent`s and treated as non-aborting (the
  hand-off contract of spec §4.3) — the source's `_save_trade`, however,
  raises on every call (misindented `logger.error` reading the unbound
  `e`), so this layer describes the program exactly only on calls that
  produce no trade, and otherwise describes the incoming order's
  mutations, the emitted trades' construction and the first iteration,
  which are the parts the program executes before aborting;
  (2) `save_tradeRun` … `add_orderRun`: the same control flow with the
  Python exception threaded through `Except` (no state on abort);
  (3) `matchLoopPy` / `add_orderPy`: the program-faithful whole — an
  uncaught exception carries the in-memory state left behind (Python heap
  mutations are not rolled back) and the persistence calls actually made,
  so claims about completed trade-producing calls are settled against it.
-/

namespace MedExchange

/-- `models.Order`: identity, owner, side string, limit price, remaining
quantity (mutated during matching), creation timestamp. -/
structure Order where
  order_id : String
  user_id : String
  side : String
  price : Int
  quantity : Int
  timestamp : Int
deriving Repr, DecidableEq

/-- `models.Trade`: an executed match between a buy order and a sell order. -/
structure Trade where
  trade_id : String
  buy_order_id : String
  sell_order_id : String
  price : Int
  quantity : Int
deriving Repr, DecidableEq

/-- One persistence hand-off call performed by the matching code:
`_save_or_update_order` merging an order row, or `_save_trade` merging a
trade row. -/
inductive PEvent where
  | upsertOrder (o : Order)
  | insertTrade (t : Trade)
deriving Repr, DecidableEq

/-- The in-memory state of `OrderBook`: buy side, sell side, trade history. -/
structure OrderBook where
  buy_orders : List Order
  sell_orders : List Order
  trade_history : List Trade
deriving Repr, DecidableEq

/-- Python `str.upper()` (ASCII-relevant part), used by
`add_order`'s `order.side.upper() == "BUY"` test. -/
def pyUpper (s : String) : String := ⟨s.data.map Char.toUpper⟩

/-- The in-memory trace of `OrderBook._save_or_update_order`: the method
returns immediately when `order.order_id` is falsy, otherwise it merges the
order row (a DB failure is caught, rolled back and logged inside the
`except` block, never re-raised).  The merge attempt is recorded as an
`upsertOrder` event; the book state is never touched. -/
def save_or_update_order (o : Order) : List PEvent :=
  if o.order_id = "" then [] else [PEvent.upsertOrder o]

/-- Sum of the `quantity` fields of a list of trades. -/
def sumQty : List Trade → Int
  | [] => 0
  | t :: ts => t.quantity + sumQty ts

/-- Sum of the remaining quantities of a list of orders. -/
def sumOrderQty : List Order → Int
  | [] => 0
  | o :: os => o.quantity + sumOrderQty os

/-- The comparator realised by `self.buy_orders.sort(key=lambda o: o.price,
reverse=True)`: descending price. -/
def bidLE (a b : Order) : Prop := b.price ≤ a.price

/-- The comparator realised by `self.sell_orders.sort(key=lambda o:
o.price)`: ascending price. -/
def askLE (a b : Order) : Prop := a.price ≤ b.price

instance : DecidableRel bidLE := fun a b => inferInstanceAs (Decidable (b.price ≤ a.price))

instance : DecidableRel askLE := fun a b => inferInstanceAs (Decidable (a.price ≤ b.price))

instance : IsTotal Order bidLE := ⟨fun a b => le_total b.price a.price⟩

instance : IsTrans Order bidLE := ⟨fun _ _ _ h1 h2 => le_trans h2 h1⟩

instance : IsTotal Order askLE := ⟨fun a b => le_total a.price b.price⟩

instance : IsTrans Order askLE := ⟨fun _ _ _ h1 h2 => le_trans h1 h2⟩

/-- The crossing test of `_match_buy`'s loop guard:
`buy_order.price >= self.sell_orders[0].price`. -/
def buyCrosses (inc s : Order) : Bool := decide (s.price ≤ inc.price)

/-- The crossing test of `_match_sell`'s loop guard:
`sell_order.price <= self.buy_orders[0].price`. -/
def sellCrosses (inc b : Order) : Bool := decide (inc.price ≤ b.price)

/-- The `Trade(...)` constructed inside `_match_buy`: the incoming order
supplies the buy id, the resting sell supplies the sell id, and the price is
`trade_price = best_sell.price`.  `uuid.uuid4()` is modelled by an opaque
fixed token. -/
def mkBuyTrade (inc resting : Order) (tq : Int) : Trade :=
  { trade_id := "uuid4", buy_order_id := inc.order_id,
    sell_order_id := resting.order_id, price := resting.price, quantity := tq }

/-- The `Trade(...)` constructed inside `_match_sell`: the resting buy
supplies the buy id, the incoming order supplies the sell id, and the price
is `trade_price = best_buy.price`. -/
def mkSellTrade (inc resting : Order) (tq : Int) : Trade :=
  { trade_id := "uuid4", buy_order_id := resting.order_id,
    sell_order_id := inc.order_id, price := resting.price, quantity := tq }

/-- Result of one run of a matching `while` loop: the incoming order after
its in-place quantity mutations, the opposite book side left behind, the
trades executed (in emission order, as appended to both `trades_executed`
and `self.trade_history`), and the persistence calls made. -/
structure LoopResult where
  inc : Order
  opp : List Order
  trades : List Trade
  events : List PEvent
deriving Repr, DecidableEq

/-- The `while` loop shared by `_match_buy` and `_match_sell` (the two
Python bodies are textually symmetric; `crosses`/`mk` instantiate the side
specific guard and trade construction).  Per iteration, against the head
`s` of the opposite side: `trade_qty = min(incoming.quantity, s.quantity)`,
a trade is emitted, both quantities are decremented, the trade and both
updated orders are handed to persistence, and `s` is popped iff its
quantity reached 0 (otherwise it stays at the front and the loop re-checks
its guard, which then fails because the incoming quantity reached 0).
Persistence is recorded as events and treated as non-aborting here; the
program-faithful loop, in which the first `_save_trade` call raises and
aborts with the mutations in place, is `matchLoopPy` below.  The two agree
on every run that emits no trade, and on the first iteration's trade and
mutations otherwise. -/
def matchLoop (crosses : Order → Order → Bool) (mk : Order → Order → Int → Trade)
    (inc : Order) (opp : List Order) : LoopResult :=
  match opp with
  | [] => ⟨inc, [], [], []⟩
  | s :: rest =>
    if h : 0 < inc.quantity ∧ crosses inc s then
      let tq := min inc.quantity s.quantity
      let t := mk inc s tq
      let inc' := { inc with quantity := inc.quantity - tq }
      let s' := { s with quantity := s.quantity - tq }
      let evs := PEvent.insertTrade t :: (save_or_update_order inc' ++ save_or_update_order s')
      if hq : s'.quantity = 0 then
        let r := matchLoop crosses mk inc' rest
        ⟨r.inc, r.opp, t :: r.trades, evs ++ r.events⟩
      else
        let r := matchLoop crosses mk inc' (s' :: rest)
        ⟨r.inc, r.opp, t :: r.trades, evs ++ r.events⟩
    else ⟨inc, s :: rest, [], []⟩
termination_by (opp.length, inc.quantity.toNat)
decreasing_by
  · exact Prod.Lex.left _ _ (by simp)
  · apply Prod.Lex.right
    simp only [Order.quantity] at *
    omega

/-- Result of `_match_buy` / `_match_sell` / `add_order`: the new book, the
incoming order after its in-place mutations, the executed trades, and the
persistence calls made. -/
structure AddResult where
  book : OrderBook
  order : Order
  trades : List Trade
  events : List PEvent
deriving Repr, DecidableEq

/-- `OrderBook._match_buy`: run the loop against the sell side; any
remainder of the buy order is appended to `self.buy_orders`, which is then
re-sorted by descending price with Python's *stable* `list.sort` — modelled
by `List.insertionSort bidLE`, which is stable for this comparator
(`orderedInsert` keeps an earlier element in front of later ties). -/
def _match_buy (ob : OrderBook) (buy0 : Order) : AddResult :=
  let r := matchLoop buyCrosses mkBuyTrade buy0 ob.sell_orders
  let buys' := if 0 < r.inc.quantity
    then List.insertionSort bidLE (ob.buy_orders ++ [r.inc])
    else ob.buy_orders
  { book := { buy_orders := buys', sell_orders := r.opp,
              trade_history := ob.trade_history ++ r.trades },
    order := r.inc, trades := r.trades, events := r.events }

/-- `OrderBook._match_sell`: run the loop against the buy side; any
remainder of the sell order is appended to `self.sell_orders`, re-sorted by
ascending price with Python's stable `list.sort` (`List.insertionSort
askLE`). -/
def _match_sell (ob : OrderBook) (sell0 : Order) : AddResult :=
  let r := matchLoop sellCrosses mkSellTrade sell0 ob.buy_orders
  let sells' := if 0 < r.inc.quantity
    then List.insertionSort askLE (ob.sell_orders ++ [r.inc])
    else ob.sell_orders
  { book := { buy_orders := r.opp, sell_orders := sells',
              trade_history := ob.trade_history ++ r.trades },
    order := r.inc, trades := r.trades, events := r.events }

/-- `OrderBook.add_order` (in-memory matching semantics): dispatch on
`order.side.upper() == "BUY"` (anything else goes to `_match_sell`), then
unconditionally call `_save_or_update_order(order)` on the (mutated)
incoming order and `_save_trade(t)` on every executed trade.  Persistence
is treated as non-aborting here; the program-faithful version, in which a
trade-producing call aborts at the first `_save_trade`, is `add_orderPy`
(exception outcomes alone: `add_orderRun`). -/
def add_order (ob : OrderBook) (order : Order) : AddResult :=
  let m := if pyUpper order.side = "BUY" then _match_buy ob order else _match_sell ob order
  { m with
    events := m.events ++ save_or_update_order m.order
                ++ m.trades.map PEvent.insertTrade }

/-! ### Exception-level model of the persistence helpers

Python exceptions are threaded through `Except PyErr`.  `pyTry body h`
models `try: body except Exception as e: h e`. -/

/-- The Python exceptions relevant to `order_book.py`. -/
inductive PyErr where
  /-- `NameError` / `UnboundLocalError`: a name referenced but not bound. -/
  | nameError
  /-- any exception raised by the SQLAlchemy layer. -/
  | dbError
deriving Repr, DecidableEq

/-- `try: body  except Exception as e: handler e`. -/
def pyTry (body : Except PyErr Unit) (handler : PyErr → Except PyErr Unit) :
    Except PyErr Unit :=
  match body with
  | Except.error e => handler e
  | Except.ok _ => Except.ok ()

/-- The `db.merge(...); db.commit()` pair: succeeds, or raises a database
exception (`dbFails` selects the environment's behaviour). -/
def dbOp (dbFails : Bool) : Except PyErr Unit :=
  if dbFails then Except.error PyErr.dbError else Except.ok ()

/-- `OrderBook._save_trade`, exception-faithful.  The `try` block merges and
commits; `except Exception as e` rolls back (swallowing the DB error).  The
`logger.error(f"Error inserting trade {trade.trade_id} in DB: {e}")` line
that follows is indented *outside* the `except` block, so it executes on
every path and reads `e`, which is unbound there (never assigned on
success; unbound again after the `except` block exits, since Python deletes
the exception variable).  Hence the call raises `NameError` on every path,
whatever the database did. -/
def save_tradeRun (dbFails : Bool) : Except PyErr Unit := do
  let _ ← pyTry (dbOp dbFails) (fun _e => Except.ok ())
  Except.error PyErr.nameError

/-- `OrderBook._save_or_update_order`, exception-faithful: returns
immediately on a falsy `order_id`; otherwise merges, and a DB failure is
caught, rolled back and logged *inside* the `except` block — it never
raises. -/
def save_or_update_orderRun (o : Order) (dbFails : Bool) : Except PyErr Unit :=
  if o.order_id = "" then Except.ok ()
  else pyTry (dbOp dbFails) (fun _e => Except.ok ())

/-- The matching `while` loop with the persistence calls' exception
behaviour included: `_save_trade` / `_save_or_update_order` are invoked
once per iteration, in source order, and an exception escaping them aborts
the loop (and, upstream, `add_order`). -/
def matchLoopRun (crosses : Order → Order → Bool) (mk : Order → Order → Int → Trade)
    (dbFails : Bool) (inc : Order) (opp : List Order) :
    Except PyErr (Order × List Order × List Trade) :=
  match opp with
  | [] => Except.ok (inc, [], [])
  | s :: rest =>
    if h : 0 < inc.quantity ∧ crosses inc s then
      let tq := min inc.quantity s.quantity
      let t := mk inc s tq
      let inc' := { inc with quantity := inc.quantity - tq }
      let s' := { s with quantity := s.quantity - tq }
      do
        let _ ← save_tradeRun dbFails
        let _ ← save_or_update_orderRun inc' dbFails
        let _ ← save_or_update_orderRun s' dbFails
        if hq : s'.quantity = 0 then
          let r ← matchLoopRun crosses mk dbFails inc' rest
          Except.ok (r.1, r.2.1, t :: r.2.2)
        else
          let r ← matchLoopRun crosses mk dbFails inc' (s' :: rest)
          Except.ok (r.1, r.2.1, t :: r.2.2)
    else Except.ok (inc, s :: rest, [])
termination_by (opp.length, inc.quantity.toNat)
decreasing_by
  · exact Prod.Lex.left _ _ (by simp)
  · apply Prod.Lex.right
    simp only [Order.quantity] at *
    omega

/-- `_match_buy` with exception propagation. -/
def _match_buyRun (dbFails : Bool) (ob : OrderBook) (buy0 : Order) :
    Except PyErr (OrderBook × Order × List Trade) := do
  let r ← matchLoopRun buyCrosses mkBuyTrade dbFails buy0 ob.sell_orders
  let buys' := if 0 < r.1.quantity
    then List.insertionSort bidLE (ob.buy_orders ++ [r.1])
    else ob.buy_orders
  Except.ok ({ buy_orders := buys', sell_orders := r.2.1,
               trade_history := ob.trade_history ++ r.2.2 }, r.1, r.2.2)

/-- `_match_sell` with exception propagation. -/
def _match_sellRun (dbFails : Bool) (ob : OrderBook) (sell0 : Order) :
    Except PyErr (OrderBook × Order × List Trade) := do
  let r ← matchLoopRun sellCrosses mkSellTrade dbFails sell0 ob.buy_orders
  let sells' := if 0 < r.1.quantity
    then List.insertionSort askLE (ob.sell_orders ++ [r.1])
    else ob.sell_orders
  Except.ok ({ buy_orders := r.2.1, sell_orders := sells',
               trade_history := ob.trade_history ++ r.2.2 }, r.1, r.2.2)

/-- `add_order` with exception propagation: an exception raised by a
persistence call inside the matching loop, by the final
`_save_or_update_order(order)`, or by the final `for t in trades:
self._save_trade(t)` loop propagates to the caller and no trade list is
returned. -/
def add_orderRun (dbFails : Bool) (ob : OrderBook) (order : Order) :
    Except PyErr (OrderBook × List Trade) := do
  let m ← if pyUpper order.side = "BUY" then _match_buyRun dbFails ob order
          else _match_sellRun dbFails ob order
  let _ ← save_or_update_orderRun m.2.1 dbFails
  let _ ← m.2.2.forM (fun _t => save_tradeRun dbFails)
  Except.ok (m.1, m.2.2)

/-! ### Program-faithful model: exceptions with surviving state

`_save_trade` raises on every call (see `save_tradeRun`), so a
trade-producing `add_order` call aborts mid-loop.  Python's heap mutations
performed before the raise — the decremented quantities, the un-popped
front order, the trade appended to `trade_history` — survive the
exception.  The model below carries that state, and the persistence calls
actually performed, through both the normal and the exceptional outcome. -/

/-- The in-memory objects `_match_buy` / `_match_sell` mutate in place: the
incoming order, the opposite book side, and the trade history.  They retain
their mutations when an exception aborts the loop. -/
structure MatchPyState where
  inc : Order
  opp : List Order
  hist : List Trade
deriving Repr, DecidableEq

/-- Outcome of a Python-level call: a normal return with a value, or an
uncaught exception.  Either way the mutated in-memory state `st` survives,
and `events` records the persistence-layer calls actually made. -/
inductive PyOutcome (σ α : Type) where
  | ok (val : α) (st : σ) (events : List PEvent)
  | exc (e : PyErr) (st : σ) (events : List PEvent)
deriving Repr, DecidableEq

/-- The matching `while` loop exactly as the program runs it: per iteration
the trade is appended (to `trades_executed` and `self.trade_history`) and
both quantities are decremented *first*; then come the three persistence
calls in source order.  The first of them, `_save_trade`, raises
`NameError` on every call (`save_tradeRun`), aborting the loop with the
mutations in place: the front order is *not* popped (the zero-quantity
check comes later in the iteration) and no further iteration runs.  The
continuation after the persistence calls is written out faithfully but is
reachable only if `_save_trade` returns, which it never does. -/
def matchLoopPy (crosses : Order → Order → Bool) (mk : Order → Order → Int → Trade)
    (dbFails : Bool) (inc : Order) (opp : List Order) (hist : List Trade) :
    PyOutcome MatchPyState (List Trade) :=
  match opp with
  | [] => .ok [] ⟨inc, [], hist⟩ []
  | s :: rest =>
    if h : 0 < inc.quantity ∧ crosses inc s then
      let tq := min inc.quantity s.quantity
      let t := mk inc s tq
      let inc' := { inc with quantity := inc.quantity - tq }
      let s' := { s with quantity := s.quantity - tq }
      match save_tradeRun dbFails with
      | Except.error e => .exc e ⟨inc', s' :: rest, hist ++ [t]⟩ [PEvent.insertTrade t]
      | Except.ok _ =>
        match save_or_update_orderRun inc' dbFails with
        | Except.error e =>
            .exc e ⟨inc', s' :: rest, hist ++ [t]⟩
              (PEvent.insertTrade t :: save_or_update_order inc')
        | Except.ok _ =>
          match save_or_update_orderRun s' dbFails with
          | Except.error e =>
              .exc e ⟨inc', s' :: rest, hist ++ [t]⟩
                (PEvent.insertTrade t
                  :: (save_or_update_order inc' ++ save_or_update_order s'))
          | Except.ok _ =>
            let evs := PEvent.insertTrade t
              :: (save_or_update_order inc' ++ save_or_update_order s')
            if hq : s'.quantity = 0 then
              match matchLoopPy crosses mk dbFails inc' rest (hist ++ [t]) with
              | .ok ts st es => .ok (t :: ts) st (evs ++ es)
              | .exc e st es => .exc e st (evs ++ es)
            else
              match matchLoopPy crosses mk dbFails inc' (s' :: rest) (hist ++ [t]) with
              | .ok ts st es => .ok (t :: ts) st (evs ++ es)
              | .exc e st es => .exc e st (evs ++ es)
    else .ok [] ⟨inc, s :: rest, hist⟩ []
termination_by (opp.length, inc.quantity.toNat)
decreasing_by
  · exact Prod.Lex.left _ _ (by simp)
  · apply Prod.Lex.right
    simp only [Order.quantity] at *
    omega

/-- `_match_buy`, program-faithful: when the loop aborts, the bid side
(`self.buy_orders`) is untouched — the remainder insertion at the end of
the method is never reached — while the ask side and the trade history
keep the loop's mutations. -/
def _match_buyPy (dbFails : Bool) (ob : OrderBook) (buy0 : Order) :
    PyOutcome (OrderBook × Order) (List Trade) :=
  match matchLoopPy buyCrosses mkBuyTrade dbFails buy0 ob.sell_orders ob.trade_history with
  | .exc e st es =>
      .exc e ({ buy_orders := ob.buy_orders, sell_orders := st.opp,
                trade_history := st.hist }, st.inc) es
  | .ok trades st es =>
      .ok trades
        ({ buy_orders := if 0 < st.inc.quantity
              then List.insertionSort bidLE (ob.buy_orders ++ [st.inc])
              else ob.buy_orders,
           sell_orders := st.opp, trade_history := st.hist }, st.inc) es

/-- `_match_sell`, program-faithful (mirror of `_match_buyPy`). -/
def _match_sellPy (dbFails : Bool) (ob : OrderBook) (sell0 : Order) :
    PyOutcome (OrderBook × Order) (List Trade) :=
  match matchLoopPy sellCrosses mkSellTrade dbFails sell0 ob.buy_orders ob.trade_history with
  | .exc e st es =>
      .exc e ({ buy_orders := st.opp, sell_orders := ob.sell_orders,
                trade_history := st.hist }, st.inc) es
  | .ok trades st es =>
      .ok trades
        ({ buy_orders := st.opp,
           sell_orders := if 0 < st.inc.quantity
              then List.insertionSort askLE (ob.sell_orders ++ [st.inc])
              else ob.sell_orders,
           trade_history := st.hist }, st.inc) es

/-- `for t in trades: self._save_trade(t)` — each call is recorded; the
loop aborts at the first raise. -/
def saveTradesPy (dbFails : Bool) : List Trade → List PEvent × Except PyErr Unit
  | [] => ([], Except.ok ())
  | t :: ts =>
    match save_tradeRun dbFails with
    | Except.error e => ([PEvent.insertTrade t], Except.error e)
    | Except.ok _ =>
      let r := saveTradesPy dbFails ts
      (PEvent.insertTrade t :: r.1, r.2)

/-- `add_order`, program-faithful: dispatch on the side, propagate an
abort from the matching loop (book state as mutated so far), otherwise run
the unconditional `_save_or_update_order(order)` and then `_save_trade`
over the executed trades — the latter raises at its first call whenever
there is a trade, so a trade-producing call never returns normally. -/
def add_orderPy (dbFails : Bool) (ob : OrderBook) (order : Order) :
    PyOutcome (OrderBook × Order) (List Trade) :=
  match (if pyUpper order.side = "BUY" then _match_buyPy dbFails ob order
         else _match_sellPy dbFails ob order) with
  | .exc e st es => .exc e st es
  | .ok trades st es =>
    match save_or_update_orderRun st.2 dbFails with
    | Except.error e => .exc e st (es ++ save_or_update_order st.2)
    | Except.ok _ =>
      match hsv : saveTradesPy dbFails trades with
      | (es2, Except.error e) => .exc e st (es ++ save_or_update_order st.2 ++ es2)
      | (es2, Except.ok _) => .ok trades st (es ++ save_or_update_order st.2 ++ es2)

/-! ### The request layer's `create_order` (`main.py`) -/

/-- The JSON fields `create_order` reads with `data.get(...)`; a missing
field is `none`. -/
structure Submission where
  user_id : Option String
  side : Option String
  price : Option Int
  quantity : Option Int
deriving Repr, DecidableEq

/-- Python truthiness of a possibly-missing string field (`None` and `""`
are falsy). -/
def truthyStr : Option String → Bool
  | none => false
  | some s => !(s == "")

/-- Python truthiness of a possibly-missing numeric field (`None` and `0`
are falsy). -/
def truthyNum : Option Int → Bool
  | none => false
  | some n => !(n == 0)

/-- The `all([user_id, side, price, quantity])` presence check of
`create_order`. -/
def allFieldsTruthy (sub : Submission) : Bool :=
  truthyStr sub.user_id && truthyStr sub.side && truthyNum sub.price && truthyNum sub.quantity

/-- The 400 response body of `create_order`'s rejection branch. -/
def msgMissing : String := "Missing required fields"

/-- The `Order(...)` that `create_order` builds from an accepted
submission (`oid` models the fresh `os.urandom(16).hex()` token). -/
def subOrder (sub : Submission) (oid : String) : Order :=
  { order_id := oid, user_id := sub.user_id.getD "", side := sub.side.getD "",
    price := sub.price.getD 0, quantity := sub.quantity.getD 0, timestamp := 0 }

/-- `main.create_order` (validation and dispatch; auth and rate limiting are
out of scope): reject with 400 `"Missing required fields"` when
`not all([user_id, side, price, quantity])` — a *truthiness* check, the
only validation performed — otherwise build the order and run
`order_book.add_order`.  Returns the (possibly updated) book plus either
the error message or the executed trades. -/
def create_order (ob : OrderBook) (sub : Submission) (oid : String) :
    OrderBook × Except String (List Trade) :=
  if !(allFieldsTruthy sub) then (ob, Except.error msgMissing)
  else
    let res := add_order ob (subOrder sub oid)
    (res.book, Except.ok res.trades)

/-! ### Book invariants (spec §3) -/

/-- The spec's book-side invariant for one side under comparator `r`:
sorted, no duplicate order identities, all remaining quantities positive. -/
def sideInv (r : Order → Order → Prop) (l : List Order) : Prop :=
  l.Sorted r ∧ (l.map Order.order_id).Nodup ∧ ∀ o ∈ l, 0 < o.quantity

/-- The spec's whole-book invariant: bid side sorted by descending price,
ask side by ascending price, unique identities, positive quantities. -/
def bookInv (ob : OrderBook) : Prop :=
  sideInv bidLE ob.buy_orders ∧ sideInv askLE ob.sell_orders

instance (r : Order → Order → Prop) [DecidableRel r] (l : List Order) :
    Decidable (sideInv r l) := by
  unfold sideInv
  infer_instance

instance (ob : OrderBook) : Decidable (bookInv ob) := by
  unfold bookInv
  infer_instance

/-! ### Concrete sample data used by witnesses and counterexamples -/

/-- A fresh, empty book (`OrderBook.__init__`). -/
def emptyBook : OrderBook := { buy_orders := [], sell_orders := [], trade_history := [] }

/-- Sample resting sell: SELL 5 @ 95. -/
def oSell95 : Order :=
  { order_id := "S1", user_id := "u1", side := "SELL", price := 95, quantity := 5, timestamp := 0 }

/-- Sample incoming buy: BUY 8 @ 100. -/
def oBuy100 : Order :=
  { order_id := "B1", user_id := "u2", side := "BUY", price := 100, quantity := 8, timestamp := 1 }

/-- Sample resting buy: BUY 5 @ 100. -/
def oRestBuy : Order :=
  { order_id := "B2", user_id := "u3", side := "BUY", price := 100, quantity := 5, timestamp := 0 }

/-- Sample incoming sell that exactly fills `oRestBuy`: SELL 5 @ 100. -/
def oSell100 : Order :=
  { order_id := "S2", user_id := "u4", side := "SELL", price := 100, quantity := 5, timestamp := 1 }

/-- Book holding just the resting sell `oSell95`. -/
def bookS : OrderBook :=
  { buy_orders := [], sell_orders := [oSell95], trade_history := [] }

/-- Book holding just the resting buy `oRestBuy`. -/
def bookB : OrderBook :=
  { buy_orders := [oRestBuy], sell_orders := [], trade_history := [] }

/-- First resting sell at 100 for the FIFO scenario: SELL 5 @ 100 (earlier). -/
def oA : Order :=
  { order_id := "A", user_id := "uA", side := "SELL", price := 100, quantity := 5, timestamp := 0 }

/-- Second resting sell at 100 for the FIFO scenario: SELL 5 @ 100 (later). -/
def oB : Order :=
  { order_id := "B", user_id := "uB", side := "SELL", price := 100, quantity := 5, timestamp := 1 }

/-- Book holding `oA` then `oB`, both SELL 5 @ 100, FIFO order. -/
def bookAB : OrderBook :=
  { buy_orders := [], sell_orders := [oA, oB], trade_history := [] }

/-- Incoming BUY 7 @ 100: crosses both resting sells, fills `oA` fully and
`oB` partially. -/
def oBuy7 : Order :=
  { order_id := "C", user_id := "uC", side := "BUY", price := 100, quantity := 7, timestamp := 2 }

/-- An order with negative quantity (reachable: `int(quantity)` in
`create_order` accepts negatives, and `add_order` is a public method). -/
def oNegQty : Order :=
  { order_id := "N1", user_id := "u5", side := "BUY", price := 50, quantity := -1, timestamp := 0 }

/-- A submission with a negative price: every field is Python-truthy, so
`create_order` accepts it. -/
def subNegPrice : Submission :=
  { user_id := some "u6", side := some "SELL", price := some (-1), quantity := some 2 }

/-- The fresh id handed to `create_order` in the counterexample. -/
def oidNeg : String := "deadbeef"

/-- The trade produced when `oBuy100` hits `bookS`: it executes at the
resting sell's price 95, not at the incoming order's price 100. -/
def trBS : Trade :=
  { trade_id := "uuid4", buy_order_id := "B1", sell_order_id := "S1",
    price := 95, quantity := 5 }

/-- A submission whose `quantity` field is absent: Python-falsy, so
`create_order` rejects it. -/
def subMissingQty : Submission :=
  { user_id := some "u7", side := some "BUY", price := some 5, quantity := none }

/-- An order submitted with remaining quantity already 0: it produces no
trade, so `add_order` completes normally (no `_save_trade` call), and the
unconditional upsert passes it to persistence at quantity 0. -/
def oZeroQty : Order :=
  { order_id := "Z1", user_id := "u8", side := "SELL", price := 100, quantity := 0,
    timestamp := 0 }

/-! ### Generic lemmas about the matching loop -/

/-- Conservation on the incoming side: the loop removes from the incoming
order exactly the total quantity of the trades it emits. -/
theorem matchLoop_inc_conserve (crosses : Order → Order → Bool)
    (mk : Order → Order → Int → Trade) (hmk : ∀ i ro q, (mk i ro q).quantity = q)
    (inc : Order) (opp : List Order) :
    (matchLoop crosses mk inc opp).inc.quantity
      + sumQty (matchLoop crosses mk inc opp).trades = inc.quantity := by
  induction inc, opp using matchLoop.induct crosses mk with
  | case1 inc => simp [matchLoop, sumQty]
  | case2 inc s rest h tq inc' s' hq ih =>
    simp only [tq, inc', s'] at hq ih
    rw [matchLoop, dif_pos h]
    simp [hq, sumQty, hmk]
    omega
  | case3 inc s rest h tq inc' s' hq ih =>
    simp only [tq, inc', s'] at hq ih
    rw [matchLoop, dif_pos h]
    simp [hq, sumQty, hmk]
    omega
  | case4 inc s rest h =>
    rw [matchLoop, dif_neg h]
    simp [sumQty]

/-- The incoming order's remaining quantity never becomes negative: each
iteration subtracts `min(incoming, resting) ≤ incoming`. -/
theorem matchLoop_inc_nonneg (crosses : Order → Order → Bool)
    (mk : Order → Order → Int → Trade)
    (inc : Order) (opp : List Order) (h0 : 0 ≤ inc.quantity) :
    0 ≤ (matchLoop crosses mk inc opp).inc.quantity := by
  induction inc, opp using matchLoop.induct crosses mk with
  | case1 inc => simpa [matchLoop] using h0
  | case2 inc s rest h tq inc' s' hq ih =>
    simp only [tq, inc', s'] at hq ih
    rw [matchLoop, dif_pos h]
    simp [hq]
    exact ih (by simp)
  | case3 inc s rest h tq inc' s' hq ih =>
    simp only [tq, inc', s'] at hq ih
    rw [matchLoop, dif_pos h]
    simp [hq]
    exact ih (by simp)
  | case4 inc s rest h =>
    rw [matchLoop, dif_neg h]
    simpa using h0

/-- Conservation on the resting side: the quantity total of the opposite
side drops by exactly the total quantity of the emitted trades. -/
theorem matchLoop_opp_conserve (crosses : Order → Order → Bool)
    (mk : Order → Order → Int → Trade) (hmk : ∀ i ro q, (mk i ro q).quantity = q)
    (inc : Order) (opp : List Order) :
    sumOrderQty opp
      = sumOrderQty (matchLoop crosses mk inc opp).opp
        + sumQty (matchLoop crosses mk inc opp).trades := by
  induction inc, opp using matchLoop.induct crosses mk with
  | case1 inc => simp [matchLoop, sumQty, sumOrderQty]
  | case2 inc s rest h tq inc' s' hq ih =>
    simp only [tq, inc', s'] at hq ih
    rw [matchLoop, dif_pos h]
    simp [hq, sumQty, sumOrderQty, hmk] at ih ⊢
    omega
  | case3 inc s rest h tq inc' s' hq ih =>
    simp only [tq, inc', s'] at hq ih
    rw [matchLoop, dif_pos h]
    simp [hq, sumQty, sumOrderQty, hmk] at ih ⊢
    omega
  | case4 inc s rest h =>
    rw [matchLoop, dif_neg h]
    simp [sumQty]

/-- Provenance of every emitted trade: it is `mk` applied to an order
carrying the incoming order's identity and to (a quantity-update of) some
member of the original opposite side, so in particular it carries that
resting order's identity and limit price. -/
theorem matchLoop_trades_src (crosses : Order → Order → Bool)
    (mk : Order → Order → Int → Trade) (inc : Order) (opp : List Order) :
    ∀ t ∈ (matchLoop crosses mk inc opp).trades,
      ∃ i' sr q, t = mk i' sr q ∧ i'.order_id = inc.order_id ∧
        ∃ ro ∈ opp, sr.order_id = ro.order_id ∧ sr.price = ro.price := by
  induction inc, opp using matchLoop.induct crosses mk with
  | case1 inc => simp [matchLoop]
  | case2 inc s rest h tq inc' s' hq ih =>
    simp only [tq, inc', s'] at hq ih
    rw [matchLoop, dif_pos h]
    simp only [hq, dite_eq_ite, if_pos]
    intro t ht
    simp at ht
    rcases ht with rfl | ht
    · exact ⟨inc, s, _, rfl, rfl, s, by simp, rfl, rfl⟩
    · obtain ⟨i', sr, q, rfl, hid, ro, hro, hsid, hsp⟩ := ih t ht
      exact ⟨i', sr, q, rfl, hid, ro, by simp [hro], hsid, hsp⟩
  | case3 inc s rest h tq inc' s' hq ih =>
    simp only [tq, inc', s'] at hq ih
    rw [matchLoop, dif_pos h]
    simp only [hq, dite_eq_ite, if_neg]
    intro t ht
    simp at ht
    rcases ht with rfl | ht
    · exact ⟨inc, s, _, rfl, rfl, s, by simp, rfl, rfl⟩
    · obtain ⟨i', sr, q, rfl, hid, ro, hro, hsid, hsp⟩ := ih t ht
      simp at hro
      rcases hro with rfl | hro
      · exact ⟨i', sr, q, rfl, hid, s, by simp, by simpa using hsid, by simpa using hsp⟩
      · exact ⟨i', sr, q, rfl, hid, ro, by simp [hro], hsid, hsp⟩
  | case4 inc s rest h =>
    rw [matchLoop, dif_neg h]
    simp

/-- The loop with an empty opposite side does nothing. -/
theorem matchLoop_nil (crosses : Order → Order → Bool)
    (mk : Order → Order → Int → Trade) (inc : Order) :
    matchLoop crosses mk inc [] = ⟨inc, [], [], []⟩ := by
  rw [matchLoop]

/-- The loop does nothing when its guard fails at the first check (spent
incoming quantity, or the best opposite order does not cross). -/
theorem matchLoop_no_cross (crosses : Order → Order → Bool)
    (mk : Order → Order → Int → Trade) (inc s : Order) (rest : List Order)
    (h : ¬(0 < inc.quantity ∧ crosses inc s)) :
    matchLoop crosses mk inc (s :: rest) = ⟨inc, s :: rest, [], []⟩ := by
  rw [matchLoop, dif_neg h]

/-- A non-positive incoming quantity fails the loop guard immediately. -/
theorem matchLoop_nonpos (crosses : Order → Order → Bool)
    (mk : Order → Order → Int → Trade) (inc : Order) (opp : List Order)
    (h : inc.quantity ≤ 0) :
    matchLoop crosses mk inc opp = ⟨inc, opp, [], []⟩ := by
  cases opp with
  | nil => rw [matchLoop]
  | cons s rest => exact matchLoop_no_cross _ _ _ _ _ (by intro hc; omega)

/-! ### Claim theorems -/

/-- C1: every trade emitted by `add_order` (via `_match_buy` or
`_match_sell`) carries the identity of the incoming order on its own side
and, on the counterparty side, the identity *and the limit price* of a
resting order of the original opposite book side — so the execution price
equals the resting counterparty's limit price and, whenever the two
differ, is not the incoming order's price. -/
theorem C1_trade_price_is_resting_price (ob : OrderBook) (order : Order) :
    (pyUpper order.side = "BUY" →
      ∀ t ∈ (add_order ob order).trades,
        t.buy_order_id = order.order_id ∧
        ∃ ro ∈ ob.sell_orders, t.sell_order_id = ro.order_id ∧ t.price = ro.price ∧
          (ro.price ≠ order.price → t.price ≠ order.price)) ∧
    (pyUpper order.side ≠ "BUY" →
      ∀ t ∈ (add_order ob order).trades,
        t.sell_order_id = order.order_id ∧
        ∃ ro ∈ ob.buy_orders, t.buy_order_id = ro.order_id ∧ t.price = ro.price ∧
          (ro.price ≠ order.price → t.price ≠ order.price)) := by
  constructor
  · intro hside t ht
    have htr : (add_order ob order).trades
        = (matchLoop buyCrosses mkBuyTrade order ob.sell_orders).trades := by
      simp [add_order, hside, _match_buy]
    rw [htr] at ht
    obtain ⟨i', sr, q, rfl, hid, ro, hro, hsid, hsp⟩ :=
      matchLoop_trades_src buyCrosses mkBuyTrade order ob.sell_orders t ht
    exact ⟨hid, ro, hro, by simpa [mkBuyTrade] using hsid,
      by simpa [mkBuyTrade] using hsp, fun hne => by simp [mkBuyTrade, hsp, hne]⟩
  · intro hside t ht
    have htr : (add_order ob order).trades
        = (matchLoop sellCrosses mkSellTrade order ob.buy_orders).trades := by
      simp [add_order, hside, _match_sell]
    rw [htr] at ht
    obtain ⟨i', sr, q, rfl, hid, ro, hro, hsid, hsp⟩ :=
      matchLoop_trades_src sellCrosses mkSellTrade order ob.buy_orders t ht
    exact ⟨hid, ro, hro, by simpa [mkSellTrade] using hsid,
      by simpa [mkSellTrade] using hsp, fun hne => by simp [mkSellTrade, hsp, hne]⟩

/-- Witness for C1: BUY 8 @ 100 against resting SELL 5 @ 95 produces a
trade priced 95 (the resting price), not 100. -/
theorem C1_witness :
    trBS ∈ (add_order bookS oBuy100).trades ∧
    trBS.buy_order_id = oBuy100.order_id ∧
    ∃ ro ∈ bookS.sell_orders, trBS.sell_order_id = ro.order_id ∧ trBS.price = ro.price ∧
      (ro.price ≠ oBuy100.price → trBS.price ≠ oBuy100.price) := by
  have hmem : trBS ∈ (add_order bookS oBuy100).trades := by
    have hs : pyUpper "BUY" = "BUY" := by decide
    simp [add_order, hs, _match_buy, matchLoop, bookS, oBuy100, oSell95, buyCrosses,
      mkBuyTrade, trBS]
  have h := (C1_trade_price_is_resting_price bookS oBuy100).1 (by decide) trBS hmem
  exact ⟨hmem, h⟩

/-- Counterexample to C3 as stated: `add_order` can be called with an order
of negative quantity (such orders pass `create_order`'s truthiness check,
and `add_order` is a public method); it then returns no trades, and
`sum = 0` is *not* `≤` the original quantity `-1`. -/
theorem C3_counterexample :
    ¬ sumQty (add_order emptyBook oNegQty).trades ≤ oNegQty.quantity := by
  have hs : pyUpper "BUY" = "BUY" := by decide
  have h : (add_order emptyBook oNegQty).trades = [] := by
    simp [add_order, hs, _match_buy, matchLoop, emptyBook, oNegQty]
  rw [h]
  decide

/-- C3 (amended): for every `add_order` call on an order of non-negative
original quantity — in particular every positive-quantity submission — the
quantities of the returned trades sum to at most the original quantity. -/
theorem C3_amended_sum_le_original (ob : OrderBook) (order : Order)
    (h0 : 0 ≤ order.quantity) :
    sumQty (add_order ob order).trades ≤ order.quantity := by
  by_cases hside : pyUpper order.side = "BUY"
  · have htr : (add_order ob order).trades
        = (matchLoop buyCrosses mkBuyTrade order ob.sell_orders).trades := by
      simp [add_order, hside, _match_buy]
    rw [htr]
    have hc := matchLoop_inc_conserve buyCrosses mkBuyTrade (fun _ _ _ => rfl)
      order ob.sell_orders
    have hn := matchLoop_inc_nonneg buyCrosses mkBuyTrade order ob.sell_orders h0
    omega
  · have htr : (add_order ob order).trades
        = (matchLoop sellCrosses mkSellTrade order ob.buy_orders).trades := by
      simp [add_order, hside, _match_sell]
    rw [htr]
    have hc := matchLoop_inc_conserve sellCrosses mkSellTrade (fun _ _ _ => rfl)
      order ob.buy_orders
    have hn := matchLoop_inc_nonneg sellCrosses mkSellTrade order ob.buy_orders h0
    omega

/-- Witness for the amended C3: BUY 8 @ 100 against resting SELL 5 @ 95
fills 5 ≤ 8. -/
theorem C3_witness :
    0 ≤ oBuy100.quantity ∧ sumQty (add_order bookS oBuy100).trades ≤ oBuy100.quantity :=
  ⟨by decide, C3_amended_sum_le_original bookS oBuy100 (by decide)⟩

/-- C9: quantity conservation for a positive-quantity submission — the
original quantity splits exactly into the remaining quantity plus the total
traded quantity, and the opposite side's resting total drops by exactly the
total traded quantity (each trade's quantity is the amount the matched
resting counterparty was decremented by in that iteration). -/
theorem C9_quantity_conservation (ob : OrderBook) (order : Order)
    (h0 : 0 < order.quantity) :
    order.quantity
        = (add_order ob order).order.quantity + sumQty (add_order ob order).trades ∧
    (pyUpper order.side = "BUY" →
      sumOrderQty ob.sell_orders
        = sumOrderQty (add_order ob order).book.sell_orders
            + sumQty (add_order ob order).trades) ∧
    (pyUpper order.side ≠ "BUY" →
      sumOrderQty ob.buy_orders
        = sumOrderQty (add_order ob order).book.buy_orders
            + sumQty (add_order ob order).trades) := by
  refine ⟨?_, ?_, ?_⟩
  · by_cases hside : pyUpper order.side = "BUY"
    · have h := matchLoop_inc_conserve buyCrosses mkBuyTrade (fun _ _ _ => rfl)
        order ob.sell_orders
      simp [add_order, hside, _match_buy]
      omega
    · have h := matchLoop_inc_conserve sellCrosses mkSellTrade (fun _ _ _ => rfl)
        order ob.buy_orders
      simp [add_order, hside, _match_sell]
      omega
  · intro hside
    have h := matchLoop_opp_conserve buyCrosses mkBuyTrade (fun _ _ _ => rfl)
      order ob.sell_orders
    simp [add_order, hside, _match_buy]
    omega
  · intro hside
    have h := matchLoop_opp_conserve sellCrosses mkSellTrade (fun _ _ _ => rfl)
      order ob.buy_orders
    simp [add_order, hside, _match_sell]
    omega

/-- Witness for C9: BUY 7 @ 100 against resting SELL 5 + SELL 5 at 100:
7 = 0 remaining + 7 traded, and the ask side's total 10 drops to 3. -/
theorem C9_witness :
    0 < oBuy7.quantity ∧
    (oBuy7.quantity
        = (add_order bookAB oBuy7).order.quantity + sumQty (add_order bookAB oBuy7).trades ∧
      (pyUpper oBuy7.side = "BUY" →
        sumOrderQty bookAB.sell_orders
          = sumOrderQty (add_order bookAB oBuy7).book.sell_orders
              + sumQty (add_order bookAB oBuy7).trades) ∧
      (pyUpper oBuy7.side ≠ "BUY" →
        sumOrderQty bookAB.buy_orders
          = sumOrderQty (add_order bookAB oBuy7).book.buy_orders
              + sumQty (add_order bookAB oBuy7).trades)) :=
  ⟨by decide, C9_quantity_conservation bookAB oBuy7 (by decide)⟩

/-- C10: an order with non-positive quantity is silently dropped —
`add_order` returns no trades, appends nothing to the trade history, and
inserts nothing into either book side (and removes nothing from them). -/
theorem C10_nonpositive_qty_dropped (ob : OrderBook) (order : Order)
    (h : order.quantity ≤ 0) :
    (add_order ob order).trades = [] ∧
    (add_order ob order).book.buy_orders = ob.buy_orders ∧
    (add_order ob order).book.sell_orders = ob.sell_orders ∧
    (add_order ob order).book.trade_history = ob.trade_history := by
  by_cases hside : pyUpper order.side = "BUY"
  · have hl := matchLoop_nonpos buyCrosses mkBuyTrade order ob.sell_orders h
    refine ⟨?_, ?_, ?_, ?_⟩ <;>
      simp [add_order, hside, _match_buy, hl] <;> omega
  · have hl := matchLoop_nonpos sellCrosses mkSellTrade order ob.buy_orders h
    refine ⟨?_, ?_, ?_, ?_⟩ <;>
      simp [add_order, hside, _match_sell, hl] <;> omega

/-- Witness for C10: a BUY with quantity `-1` against a non-empty crossing
ask side produces nothing and leaves the book untouched. -/
theorem C10_witness :
    oNegQty.quantity ≤ 0 ∧
    ((add_order bookS oNegQty).trades = [] ∧
      (add_order bookS oNegQty).book.buy_orders = bookS.buy_orders ∧
      (add_order bookS oNegQty).book.sell_orders = bookS.sell_orders ∧
      (add_order bookS oNegQty).book.trade_history = bookS.trade_history) :=
  ⟨by decide, C10_nonpositive_qty_dropped bookS oNegQty (by decide)⟩

/-- `_save_or_update_order` never lets an exception escape: a falsy id
returns early, and a DB failure is caught inside its `except` block. -/
theorem save_or_update_orderRun_ok (o : Order) (dbFails : Bool) :
    save_or_update_orderRun o dbFails = Except.ok () := by
  unfold save_or_update_orderRun
  split
  · rfl
  · cases dbFails <;> rfl

/-- The exception-level loop with an empty opposite side performs no
persistence call and returns normally. -/
theorem matchLoopRun_nil (crosses : Order → Order → Bool)
    (mk : Order → Order → Int → Trade) (dbFails : Bool) (inc : Order) :
    matchLoopRun crosses mk dbFails inc [] = Except.ok (inc, [], []) := by
  rw [matchLoopRun]

/-- The exception-level loop whose guard fails at the first check performs
no persistence call and returns normally. -/
theorem matchLoopRun_no_cross (crosses : Order → Order → Bool)
    (mk : Order → Order → Int → Trade) (dbFails : Bool) (inc s : Order)
    (rest : List Order) (h : ¬(0 < inc.quantity ∧ crosses inc s)) :
    matchLoopRun crosses mk dbFails inc (s :: rest) = Except.ok (inc, s :: rest, []) := by
  rw [matchLoopRun, dif_neg h]

/-- C5: when the opposite side is empty or its best price does not cross
(incoming BUY price < best ask, incoming SELL price > best bid),
`add_order` emits no trade, leaves the opposite side and the trade history
untouched, rests the incoming order — unchanged — in its own side in
sorted position, and returns normally (no exception is raised, whatever
the database does): the empty trade list is the ordinary outcome. -/
theorem C5_no_cross_rests_unchanged (ob : OrderBook) (order : Order) (dbFails : Bool)
    (h0 : 0 < order.quantity) :
    (pyUpper order.side = "BUY" →
      (ob.sell_orders = [] ∨ ∃ s rest, ob.sell_orders = s :: rest ∧ order.price < s.price) →
      (add_order ob order).trades = [] ∧
      (add_order ob order).book.sell_orders = ob.sell_orders ∧
      (add_order ob order).book.trade_history = ob.trade_history ∧
      (add_order ob order).book.buy_orders
          = List.insertionSort bidLE (ob.buy_orders ++ [order]) ∧
      order ∈ (add_order ob order).book.buy_orders ∧
      add_orderRun dbFails ob order = Except.ok ((add_order ob order).book, [])) ∧
    (pyUpper order.side ≠ "BUY" →
      (ob.buy_orders = [] ∨ ∃ b rest, ob.buy_orders = b :: rest ∧ b.price < order.price) →
      (add_order ob order).trades = [] ∧
      (add_order ob order).book.buy_orders = ob.buy_orders ∧
      (add_order ob order).book.trade_history = ob.trade_history ∧
      (add_order ob order).book.sell_orders
          = List.insertionSort askLE (ob.sell_orders ++ [order]) ∧
      order ∈ (add_order ob order).book.sell_orders ∧
      add_orderRun dbFails ob order = Except.ok ((add_order ob order).book, [])) := by
  constructor
  · intro hside hnc
    have hng : ∀ s rest, ob.sell_orders = s :: rest → order.price < s.price →
        ¬(0 < order.quantity ∧ buyCrosses order s) := by
      rintro s rest _ hlt ⟨_, hc⟩
      simp only [buyCrosses, decide_eq_true_eq] at hc
      omega
    have hloop : matchLoop buyCrosses mkBuyTrade order ob.sell_orders
        = ⟨order, ob.sell_orders, [], []⟩ := by
      rcases hnc with hnil | ⟨s, rest, hcons, hlt⟩
      · rw [hnil]; exact matchLoop_nil _ _ _
      · rw [hcons]; exact matchLoop_no_cross _ _ _ _ _ (hng s rest hcons hlt)
    have hloopRun : matchLoopRun buyCrosses mkBuyTrade dbFails order ob.sell_orders
        = Except.ok (order, ob.sell_orders, []) := by
      rcases hnc with hnil | ⟨s, rest, hcons, hlt⟩
      · rw [hnil]; exact matchLoopRun_nil _ _ _ _
      · rw [hcons]; exact matchLoopRun_no_cross _ _ _ _ _ _ (hng s rest hcons hlt)
    refine ⟨?_, ?_, ?_, ?_, ?_, ?_⟩
    · simp [add_order, hside, _match_buy, hloop]
    · simp [add_order, hside, _match_buy, hloop]
    · simp [add_order, hside, _match_buy, hloop]
    · simp [add_order, hside, _match_buy, hloop, h0]
    · simp [add_order, hside, _match_buy, hloop, h0]
    · simp [add_order, add_orderRun, hside, _match_buy, _match_buyRun, hloop, hloopRun,
        save_or_update_orderRun_ok, h0, Bind.bind, Except.bind, List.forM, Pure.pure, Except.pure]
  · intro hside hnc
    have hng : ∀ b rest, ob.buy_orders = b :: rest → b.price < order.price →
        ¬(0 < order.quantity ∧ sellCrosses order b) := by
      rintro b rest _ hlt ⟨_, hc⟩
      simp only [sellCrosses, decide_eq_true_eq] at hc
      omega
    have hloop : matchLoop sellCrosses mkSellTrade order ob.buy_orders
        = ⟨order, ob.buy_orders, [], []⟩ := by
      rcases hnc with hnil | ⟨b, rest, hcons, hlt⟩
      · rw [hnil]; exact matchLoop_nil _ _ _
      · rw [hcons]; exact matchLoop_no_cross _ _ _ _ _ (hng b rest hcons hlt)
    have hloopRun : matchLoopRun sellCrosses mkSellTrade dbFails order ob.buy_orders
        = Except.ok (order, ob.buy_orders, []) := by
      rcases hnc with hnil | ⟨b, rest, hcons, hlt⟩
      · rw [hnil]; exact matchLoopRun_nil _ _ _ _
      · rw [hcons]; exact matchLoopRun_no_cross _ _ _ _ _ _ (hng b rest hcons hlt)
    refine ⟨?_, ?_, ?_, ?_, ?_, ?_⟩
    · simp [add_order, hside, _match_sell, hloop]
    · simp [add_order, hside, _match_sell, hloop]
    · simp [add_order, hside, _match_sell, hloop]
    · simp [add_order, hside, _match_sell, hloop, h0]
    · simp [add_order, hside, _match_sell, hloop, h0]
    · simp [add_order, add_orderRun, hside, _match_sell, _match_sellRun, hloop, hloopRun,
        save_or_update_orderRun_ok, h0, Bind.bind, Except.bind, List.forM, Pure.pure, Except.pure]

/-- Witness for C5: BUY 8 @ 100 into an empty book — no trade, no error,
the order rests in the bid side. -/
theorem C5_witness :
    0 < oBuy100.quantity ∧
    ((add_order emptyBook oBuy100).trades = [] ∧
      (add_order emptyBook oBuy100).book.sell_orders = emptyBook.sell_orders ∧
      (add_order emptyBook oBuy100).book.trade_history = emptyBook.trade_history ∧
      (add_order emptyBook oBuy100).book.buy_orders
          = List.insertionSort bidLE (emptyBook.buy_orders ++ [oBuy100]) ∧
      oBuy100 ∈ (add_order emptyBook oBuy100).book.buy_orders ∧
      add_orderRun true emptyBook oBuy100
          = Except.ok ((add_order emptyBook oBuy100).book, [])) :=
  ⟨by decide,
   (C5_no_cross_rests_unchanged emptyBook oBuy100 true (by decide)).1 (by decide)
     (Or.inl rfl)⟩

/-- Counterexample to C6 as stated: a submission with a *negative* price
(all fields Python-truthy) is not rejected — `create_order` accepts it,
runs the matching algorithm, and the order is inserted into the sell side,
mutating book state. -/
theorem C6_counterexample :
    (subOrder subNegPrice oidNeg).price < 0 ∧
    (create_order emptyBook subNegPrice oidNeg).2 = Except.ok [] ∧
    (create_order emptyBook subNegPrice oidNeg).1.sell_orders
        = [subOrder subNegPrice oidNeg] := by
  have hs : (pyUpper "SELL" = "BUY") = False := by decide
  refine ⟨by decide, ?_, ?_⟩ <;>
    simp [create_order, allFieldsTruthy, truthyStr, truthyNum, subNegPrice, subOrder, oidNeg,
      add_order, hs, _match_sell, matchLoop, emptyBook, msgMissing]

/-- C6 (amended): `create_order` rejects a submission — with HTTP 400
`"Missing required fields"` and no book mutation — exactly when some field
is missing or Python-falsy (absent, empty string, or zero); any submission
whose fields are all truthy is handed to the matching algorithm, even with
a negative price or quantity or an unrecognized side (a side other than
BUY is processed as a sell). -/
theorem C6_amended_truthiness_validation (ob : OrderBook) (sub : Submission) (oid : String) :
    (allFieldsTruthy sub = false →
      create_order ob sub oid = (ob, Except.error msgMissing)) ∧
    (allFieldsTruthy sub = true →
      create_order ob sub oid
        = ((add_order ob (subOrder sub oid)).book,
           Except.ok (add_order ob (subOrder sub oid)).trades)) := by
  constructor <;> intro h <;> simp [create_order, h]

/-- Witness for the amended C6: a submission with a missing quantity is
rejected without touching the book; the negative-price submission is
accepted and matched. -/
theorem C6_witness :
    allFieldsTruthy subMissingQty = false ∧
    create_order emptyBook subMissingQty oidNeg = (emptyBook, Except.error msgMissing) ∧
    allFieldsTruthy subNegPrice = true ∧
    create_order emptyBook subNegPrice oidNeg
        = ((add_order emptyBook (subOrder subNegPrice oidNeg)).book,
           Except.ok (add_order emptyBook (subOrder subNegPrice oidNeg)).trades) :=
  ⟨by decide, (C6_amended_truthiness_validation emptyBook subMissingQty oidNeg).1 (by decide),
   by decide, (C6_amended_truthiness_validation emptyBook subNegPrice oidNeg).2 (by decide)⟩

/-- C8 is violated by the code (code bug): `_save_trade` raises `NameError`
on *every* call — the `logger.error(f"… {e}")` line after its
`try`/`except` is indented outside the `except` block, where `e` is always
unbound — so whether or not the database fails, the first persistence
hand-off for a trade aborts `add_order` mid-loop with an exception instead
of being logged-and-ignored, and the (non-empty) in-memory trade list is
never returned to the caller. -/
theorem C8_persistence_failure_aborts_add_order :
    save_tradeRun true = Except.error PyErr.nameError ∧
    save_tradeRun false = Except.error PyErr.nameError ∧
    add_orderRun true bookB oSell100 = Except.error PyErr.nameError ∧
    add_orderRun false bookB oSell100 = Except.error PyErr.nameError ∧
    (add_order bookB oSell100).trades ≠ [] := by
  have hs : (pyUpper "SELL" = "BUY") = False := by decide
  refine ⟨rfl, rfl, ?_, ?_, ?_⟩
  · simp [add_orderRun, hs, _match_sellRun, matchLoopRun, bookB, oSell100, oRestBuy,
      sellCrosses, save_tradeRun, pyTry, dbOp, Bind.bind, Except.bind]
  · simp [add_orderRun, hs, _match_sellRun, matchLoopRun, bookB, oSell100, oRestBuy,
      sellCrosses, save_tradeRun, pyTry, dbOp, Bind.bind, Except.bind]
  · simp [add_order, hs, _match_sell, matchLoop, bookB, oSell100, oRestBuy, sellCrosses,
      mkSellTrade]

/-- C2 is violated by the code (code bug): on the FIFO input — resting
sells `A` then `B` at the same price, incoming BUY partially satisfying
both — the program does pick `A` first and fully exhausts it (one trade,
quantity `A.quantity = 5`, `A` decremented to 0), but the very first
`_save_trade` call raises `NameError` (its `logger.error` line sits
outside the `except` block and reads the unbound `e`), so `add_order`
aborts whatever the database did: the second trade never happens, `B` is
never reduced, `A` is left at the front of the ask side with quantity 0
(the pop is dead code), and the caller receives an exception instead of
the two-trade list the claim describes. -/
theorem C2_fifo_first_fill_aborts :
    ∀ dbFails : Bool,
      add_orderPy dbFails bookAB oBuy7
        = PyOutcome.exc PyErr.nameError
            ({ buy_orders := [],
               sell_orders := [{ oA with quantity := 0 }, oB],
               trade_history := [mkBuyTrade oBuy7 oA 5] },
             { oBuy7 with quantity := 2 })
            [PEvent.insertTrade (mkBuyTrade oBuy7 oA 5)] := by
  intro dbFails
  have hs : pyUpper "BUY" = "BUY" := by decide
  cases dbFails <;>
    simp [add_orderPy, hs, _match_buyPy, matchLoopPy, bookAB, oBuy7, oA, oB, buyCrosses,
      mkBuyTrade, save_tradeRun, pyTry, dbOp, Bind.bind, Except.bind]

/-- C4 is violated by the code (code bug): starting from a book satisfying
the invariant, an exactly-filling SELL decrements the resting BUY to
quantity 0, and then `_save_trade` raises before the zero-quantity pop
(which is dead code), so after the call the bid side still holds an order
with remaining quantity 0 — the invariant the claim asserts is broken,
whatever the database did. -/
theorem C4_exact_fill_leaves_zero_qty_entry :
    bookInv bookB ∧
    (∀ dbFails : Bool,
      add_orderPy dbFails bookB oSell100
        = PyOutcome.exc PyErr.nameError
            ({ buy_orders := [{ oRestBuy with quantity := 0 }],
               sell_orders := [],
               trade_history := [mkSellTrade oSell100 oRestBuy 5] },
             { oSell100 with quantity := 0 })
            [PEvent.insertTrade (mkSellTrade oSell100 oRestBuy 5)]) ∧
    ¬ bookInv { buy_orders := [{ oRestBuy with quantity := 0 }],
                sell_orders := [],
                trade_history := [mkSellTrade oSell100 oRestBuy 5] } := by
  refine ⟨by decide, ?_, by decide⟩
  intro dbFails
  have hs : (pyUpper "SELL" = "BUY") = False := by decide
  cases dbFails <;>
    simp [add_orderPy, hs, _match_sellPy, matchLoopPy, bookB, oSell100, oRestBuy, sellCrosses,
      mkSellTrade, save_tradeRun, pyTry, dbOp, Bind.bind, Except.bind]

/-- C7 is violated by the code (code bug), on a path the program actually
completes: a zero-quantity submission produces no trade, so `_save_trade`
is never called and `add_order` returns normally — but its unconditional
`_save_or_update_order(order)` (despite the comment above it, «If there's
still quantity left on the order … Persist it») passes the order, with
remaining quantity 0, to the upsert, which merges it (`order_id` is
truthy).  The in-loop upserts of orders just decremented to 0 — which the
claim also forbids — are unreachable, because `_save_trade` raises first
(see `C8_persistence_failure_aborts_add_order`). -/
theorem C7_zero_qty_upsert_executes :
    oZeroQty.quantity = 0 ∧
    ∀ dbFails : Bool,
      add_orderPy dbFails emptyBook oZeroQty
        = PyOutcome.ok [] (emptyBook, oZeroQty) [PEvent.upsertOrder oZeroQty] := by
  refine ⟨by decide, ?_⟩
  intro dbFails
  have hs : (pyUpper "SELL" = "BUY") = False := by decide
  simp [add_orderPy, hs, _match_sellPy, matchLoopPy, emptyBook, oZeroQty,
    save_or_update_orderRun_ok, saveTradesPy, save_or_update_order]

end MedExchange
